import Mathlib

/-!
Verification of the label-memory and similarity-scoring engine of the
llm-gmail-labeler repository (src/backend/memory_store.py and
src/backend/agent.py) against its natural-language specification.

Modelling conventions:
* numpy float vectors are modelled as exact real vectors `Fin d → ℝ`;
  the dimension is kept as a parameter (the code fixes 384, which none of
  the verified properties depend on).
* The sentence-transformer encoder (`self.model.encode`) is an external
  collaborator; it is modelled as a parameter `m : String → Vec d`.
  Everything the repository's own code does around it (empty-text check,
  the `/(norm + 1e-8)` normalisation) is embedded faithfully.
* The sqlite table `labeled_emails` (primary key `message_id`) is modelled
  as a list of rows in rowid order; `rejected_labels` as an append-only list.
* The faiss index is rebuilt synchronously from the accepted rows on every
  write (`_rebuild_index`), so it always equals `rebuild_index` applied to
  the current rows; it is modelled as that derived value.
* `logging` calls that go through the defined `self.logger` are no-ops.
  Three methods of `memory_store.py` instead reference a bare name `logger`
  that is never defined at module level of memory_store.py (the module only
  imports `logging`; `logger` is a global of agent.py, a different module),
  so executing those lines raises `NameError`.  The state effect of each
  such method is factored into an `_update` definition, and the full call
  (state effect plus raised error) into a definition returning the new
  state paired with `Except PyError Unit`.  Code that calls these methods
  inside `try/except Exception` blocks (node_apply_and_update) observes
  only the state effect, which is why the composite flows below are built
  from the `_update` parts.  node_classify, by contrast, calls
  `get_rejected_labels_for_similar_emails` with no enclosing try/except
  (agent.py line 154, reached from line 207), so `centroid_scoring` and
  the per-message classifier are `Except`-valued and propagate that
  error.
-/

namespace GmailLabeler

open Classical

noncomputable section

/-- Fixed-length float vector (numpy `ndarray` of shape `(d,)`), as exact reals. -/
abbrev Vec (d : Nat) := Fin d → ℝ

/-- numpy `np.dot` of two vectors. -/
def dot {d : Nat} (v w : Vec d) : ℝ := ∑ i, v i * w i

/-- numpy `np.linalg.norm` (Euclidean norm). -/
def npNorm {d : Nat} (v : Vec d) : ℝ := Real.sqrt (dot v v)

/-- Scalar multiple of a vector (numpy broadcasting `a * v`, `v / (1/a)`). -/
def scale {d : Nat} (a : ℝ) (v : Vec d) : Vec d := fun i => a * v i

/-- numpy `np.zeros(d)`. -/
def zeroVec (d : Nat) : Vec d := fun _ => 0

/-- Standard basis vector. -/
def basis {d : Nat} (i : Fin d) : Vec d := fun j => if j = i then 1 else 0

/-- The `1e-8` guard added to every norm before dividing in memory_store.py. -/
def normEps : ℝ := 1e-8

/-- Unit-normalisation as memory_store.py performs it:
`norm = np.linalg.norm(v) + 1e-8; v / norm`. -/
def normalizeEps {d : Nat} (v : Vec d) : Vec d := scale (1 / (npNorm v + normEps)) v

/-- Row of the `labeled_emails` table / dataclass `LabeledEmail`
(memory_store.py lines 12-19 and 57-64). -/
structure LabeledEmail where
  message_id : String
  subject : Option String
  sender : Option String
  snippet : Option String
  applied_label : String
  accepted : Bool
deriving DecidableEq

/-- Row of the append-only `rejected_labels` table (memory_store.py lines
68-80); `store_rejected_label` receives plain strings for the text fields.
The autoincrement id and `created_at` timestamp are informational only and
not modelled. -/
structure RejectedRecord where
  message_id : String
  subject : String
  sender : String
  snippet : String
  rejected_label : String
deriving DecidableEq

/-- Durable state of `MemoryStore`: the two sqlite tables, in rowid order. -/
structure MemoryStore (d : Nat) where
  labeled : List LabeledEmail
  rejected : List RejectedRecord
deriving DecidableEq

/-- An incoming Gmail message as the classifier sees it (`msg.get("subject")`,
`msg.get("from")`, `msg.get("snippet")`); absent keys are `none`. -/
structure Msg where
  id : String
  subject : Option String
  sender : Option String
  snippet : Option String
deriving DecidableEq

/-- A produced suggestion, reduced to the fields the spec's `Resolved`
state distinguishes: the label and the `source` tag. -/
structure Suggestion where
  label : String
  source : String
deriving DecidableEq

/-- The raised Python errors the embedding tracks. -/
inductive PyError where
  | nameError
deriving DecidableEq

/-- Python `" \n ".join([x for x in [a, b, c] if x])`: drop `None` and `""`
(both falsy), join the rest. -/
def joinTexts (parts : List (Option String)) : String :=
  String.intercalate " \n " ((parts.filterMap id).filter (fun x => x != ""))

/-- MemoryStore._embed (memory_store.py lines 93-108) on the happy path:
empty text maps to the zero vector, otherwise the model embedding is
normalised by `/(np.linalg.norm(e) + 1e-8)`.  `m` is the external
sentence-transformer `model.encode`.  (The deterministic-hash fallback of
lines 113-119 is modelled separately as `fallback_vec`.)  `embed_text`
(lines 122-123) is the public alias the classifier calls. -/
def embed_text {d : Nat} (m : String → Vec d) (text : String) : Vec d :=
  if text = "" then zeroVec d else normalizeEps (m text)

/-- Text joined for a stored labeled row (memory_store.py line 142/207). -/
def rowText (r : LabeledEmail) : String :=
  joinTexts [r.subject, r.sender, r.snippet]

/-- MemoryStore.get_label_centroids (memory_store.py lines 125-166), as the
mapping `label -> Option centroid`.  All rows (accepted or not) contribute;
weight 5.0 when `accepted` else 1.0; weights are normalised by their sum and
`np.average` forms the weighted mean, which is then divided by
`np.linalg.norm(mean) + 1e-8`.  A label with no rows is absent (`none`);
with no rows at all, every label is absent (the empty dict of line 138). -/
def get_label_centroids {d : Nat} (m : String → Vec d) (rows : List LabeledEmail)
    (label : String) : Option (Vec d) :=
  let vws := (rows.filter (fun r => r.applied_label == label)).map
      (fun r => (embed_text m (rowText r), if r.accepted then (5 : ℝ) else 1))
  if vws.isEmpty then none
  else
    let total := (vws.map Prod.snd).sum
    let wm : Vec d := fun i => (vws.map (fun vw => vw.2 / total * vw.1 i)).sum
    some (scale (1 / (npNorm wm + normEps)) wm)

/-- The sqlite `INSERT ... ON CONFLICT(message_id) DO UPDATE` of
`upsert_labeled_email` (lines 170-189) and the `INSERT OR REPLACE` of
`mark_email_processed` (line 272) on the `labeled_emails` table, whose
primary key is `message_id`: replace the row with that key, or append. -/
def upsertRow (l : List LabeledEmail) (e : LabeledEmail) : List LabeledEmail :=
  if l.any (fun r => r.message_id == e.message_id)
  then l.map (fun r => if r.message_id == e.message_id then e else r)
  else l ++ [e]

/-- MemoryStore.upsert_labeled_email (memory_store.py lines 168-193): keyed
upsert then synchronous index rebuild.  The index is a derived value of the
rows (see `rebuild_index`), so the state change is the row upsert. -/
def upsert_labeled_email {d : Nat} (s : MemoryStore d) (e : LabeledEmail) :
    MemoryStore d :=
  { s with labeled := upsertRow s.labeled e }

/-- MemoryStore._rebuild_index (memory_store.py lines 195-212): the faiss
index over the embeddings of the `accepted=1` rows, paired with the
parallel `self.ids` list. -/
def rebuild_index {d : Nat} (m : String → Vec d) (rows : List LabeledEmail) :
    List (String × Vec d) :=
  (rows.filter (fun r => r.accepted)).map
    (fun r => (r.message_id, embed_text m (rowText r)))

/-- MemoryStore.similar (memory_store.py lines 214-229): top
`min(k, max(1, ntotal))` accepted rows by inner product with the query
embedding, in descending score order (faiss `IndexFlatIP.search`). -/
def similar {d : Nat} (m : String → Vec d) (s : MemoryStore d)
    (subject sender snippet : Option String) (k : Nat) : List (String × ℝ) :=
  let idx := rebuild_index m s.labeled
  if idx.isEmpty then []
  else
    let q := embed_text m (joinTexts [subject, sender, snippet])
    let scored := idx.map (fun iv => (iv.1, dot q iv.2))
    (scored.mergeSort (fun a b => decide (b.2 ≤ a.2))).take (min k (max 1 idx.length))

/-- MemoryStore.get_label_for_message (memory_store.py lines 231-235). -/
def get_label_for_message {d : Nat} (s : MemoryStore d) (message_id : String) :
    Option String :=
  (s.labeled.find? (fun r => r.message_id == message_id)).map (·.applied_label)

/-- MemoryStore.get_messages_by_ids (memory_store.py lines 237-259): batch
lookup by `message_id IN (...)`, in table order, omitting ids not found. -/
def get_messages_by_ids {d : Nat} (s : MemoryStore d) (ids : List String) :
    List LabeledEmail :=
  if ids.isEmpty then [] else s.labeled.filter (fun r => ids.contains r.message_id)

/-- The sql effect of MemoryStore.mark_email_processed (memory_store.py
lines 270-275): `INSERT OR REPLACE` of a row whose subject, sender and
snippet are NULL, committed before the method's final line runs. -/
def mark_update {d : Nat} (s : MemoryStore d) (message_id applied_label : String)
    (accepted : Bool) : MemoryStore d :=
  { s with labeled :=
      upsertRow s.labeled ⟨message_id, none, none, none, applied_label, accepted⟩ }

/-- MemoryStore.mark_email_processed (memory_store.py lines 268-276) as a
full call: the committed sql effect, then line 276 `logger.info(...)`
raises `NameError` because `logger` is not a name of module memory_store. -/
def mark_email_processed {d : Nat} (s : MemoryStore d)
    (message_id applied_label : String) (accepted : Bool) :
    MemoryStore d × Except PyError Unit :=
  (mark_update s message_id applied_label accepted, Except.error PyError.nameError)

/-- The sql effect of MemoryStore.store_rejected_label (memory_store.py
lines 280-288): append one row to `rejected_labels`, committed. -/
def store_rejected_update {d : Nat} (s : MemoryStore d)
    (message_id subject sender snippet rejected_label : String) : MemoryStore d :=
  { s with rejected := s.rejected ++ [⟨message_id, subject, sender, snippet, rejected_label⟩] }

/-- MemoryStore.store_rejected_label (memory_store.py lines 278-289) as a
full call: the committed append, then line 289 `logger.info(...)` raises
`NameError` (same undefined module-level name as in `mark_email_processed`). -/
def store_rejected_label {d : Nat} (s : MemoryStore d)
    (message_id subject sender snippet rejected_label : String) :
    MemoryStore d × Except PyError Unit :=
  (store_rejected_update s message_id subject sender snippet rejected_label,
   Except.error PyError.nameError)

/-- Cosine similarity as written at memory_store.py lines 311-313:
`np.dot(a, b) / (np.linalg.norm(a) * np.linalg.norm(b))` (no epsilon guard;
with a zero vector numpy yields nan and the `>=` test is False, matching
real division by zero yielding 0 here). -/
def cosSim {d : Nat} (a b : Vec d) : ℝ := dot a b / (npNorm a * npNorm b)

/-- Text joined for a stored rejected row (memory_store.py line 307). -/
def rejText (r : RejectedRecord) : String :=
  joinTexts [some r.subject, some r.sender, some r.snippet]

/-- The set computed by MemoryStore.get_rejected_labels_for_similar_emails
(memory_store.py lines 291-320), i.e. the `rejected_label` values of the
stored rejected rows whose cosine similarity to the query meets the
threshold; this is the returned value once line 318's `logger.info` is read
as a no-op.  The full call, with the undefined `logger` taken into account,
is `get_rejected_labels_for_similar_emails` below. -/
def get_rejected_labels_core {d : Nat} (m : String → Vec d)
    (rej : List RejectedRecord) (subject sender snippet : String) (θ : ℝ) :
    List String :=
  let cur := embed_text m (joinTexts [some subject, some sender, some snippet])
  (rej.filter (fun r => decide (cosSim cur (embed_text m (rejText r)) ≥ θ))).map
    (·.rejected_label)

/-- MemoryStore.get_rejected_labels_for_similar_emails as a full call: the
first row whose similarity meets the threshold reaches line 318's
`logger.info(...)`, which raises `NameError`; only when no row meets the
threshold (so the computed set is empty) does the call return. -/
def get_rejected_labels_for_similar_emails {d : Nat} (m : String → Vec d)
    (s : MemoryStore d) (subject sender snippet : String) (θ : ℝ) :
    Except PyError (List String) :=
  if s.rejected.any
      (fun r => decide (cosSim
        (embed_text m (joinTexts [some subject, some sender, some snippet]))
        (embed_text m (rejText r)) ≥ θ))
  then Except.error PyError.nameError
  else Except.ok (get_rejected_labels_core m s.rejected subject sender snippet θ)

/-- Python's `max(items, key=...)` / the explicit tally maximum: the first
pair with the (strictly) greatest second component, `none` on `[]`. -/
def argmaxFirst {α β : Type} [Preorder β] (l : List (α × β)) : Option (α × β) :=
  l.foldl (fun acc p =>
    match acc with
    | none => some p
    | some q => if q.2 < p.2 then some p else some q) none

/-- The per-label occurrence counter of `majority_label_from_similar`
(agent.py lines 129-134): a Python dict in insertion order. -/
def bumpCount : List (String × Nat) → String → List (String × Nat)
  | [], lb => [(lb, 1)]
  | (x, n) :: rest, lb =>
      if x == lb then (x, n + 1) :: rest else (x, n) :: bumpCount rest lb

/-- Build the counts dict over a list of labels. -/
def tally (ls : List String) : List (String × Nat) := ls.foldl bumpCount []

/-- majority_label_from_similar (agent.py lines 128-139): tally the
`applied_label` of the similar examples, skipping falsy labels, and return
the first label with the highest count (Python `max` keeps the first
maximal item). -/
def majority_label_from_similar (examples : List LabeledEmail) : Option String :=
  (argmaxFirst (tally ((examples.map (·.applied_label)).filter (fun l => l != "")))).map
    (·.1)

/-- The scoring loop of `centroid_scoring` inside node_classify (agent.py
lines 161-182), parameterised by the `rejected_labels` set the preceding
call bound: candidate labels in `label_names` order, skipping labels in
the rejected set and labels without a centroid; each raw cosine score
`np.dot(q, c)` is mapped to `[0,1]` by `(score + 1)/2`. -/
def score_map_with {d : Nat} (m : String → Vec d) (s : MemoryStore d)
    (msg : Msg) (labels : List String) (rejected : List String) :
    List (String × ℝ) :=
  let q := embed_text m (joinTexts [msg.subject, msg.sender, msg.snippet])
  labels.filterMap (fun label =>
    if label ∈ rejected then none
    else
      match get_label_centroids m s.labeled label with
      | none => none
      | some c => some (label, (dot q c + 1) / 2))

/-- centroid_scoring of node_classify (agent.py lines 141-195): an empty
centroid dict (no rows) short-circuits to no label BEFORE the
rejected-labels lookup; then the call to
`get_rejected_labels_for_similar_emails` at line 154 runs with no
enclosing try/except in the per-message loop, so its `NameError` (raised
whenever a stored rejected record meets the 0.7 threshold, see the store
model) propagates and the whole classification of the message dies; when
the call returns, its set is bound and the scoring loop runs, and the
best-scoring candidate is returned exactly when its mapped score is `>=`
the threshold. -/
def centroid_scoring {d : Nat} (m : String → Vec d) (s : MemoryStore d)
    (msg : Msg) (labels : List String) (θ : ℝ) :
    Except PyError (Option String × List (String × ℝ)) :=
  if s.labeled.isEmpty then Except.ok (none, [])
  else
    match get_rejected_labels_for_similar_emails m s (msg.subject.getD "")
        (msg.sender.getD "") (msg.snippet.getD "") 0.7 with
    | Except.error e => Except.error e
    | Except.ok rejected =>
        let score_map := score_map_with m s msg labels rejected
        if score_map.isEmpty then Except.ok (none, score_map)
        else
          match argmaxFirst score_map with
          | none => Except.ok (none, score_map)
          | some (bl, bs) =>
              if bs ≥ θ then Except.ok (some bl, score_map)
              else Except.ok (none, score_map)

/-- The per-message body of node_classify (agent.py lines 198-315):
tier 1 (centroid, source "centroid"), else tier 2 (top-5 similar accepted
examples' majority label when it is a known Gmail label, source
"memory_similar"), else the generative tier.  An error raised inside
tier 1 (the `NameError` of the rejected-labels lookup) is uncaught in the
loop body and propagates: the message gets no suggestion of any kind.
The LLM call and its response parsing are external; `llmResult` is the
label the parse yields, `none` when the call fails, returns nothing
usable, or the message is skipped. -/
def classify_message {d : Nat} (m : String → Vec d) (s : MemoryStore d)
    (label_names : List String) (θ : ℝ) (msg : Msg) (llmResult : Option String) :
    Except PyError (Option Suggestion) :=
  match centroid_scoring m s msg label_names θ with
  | Except.error e => Except.error e
  | Except.ok (some bl, _) => Except.ok (some ⟨bl, "centroid"⟩)
  | Except.ok (none, _) =>
      let similar_ids := (similar m s msg.subject msg.sender msg.snippet 5).map Prod.fst
      let similar_examples := get_messages_by_ids s similar_ids
      Except.ok (match majority_label_from_similar similar_examples with
        | some lb =>
            if lb ≠ "" ∧ lb ∈ label_names then some ⟨lb, "memory_similar"⟩
            else llmResult.map (fun l => ⟨l, "llm"⟩)
        | none => llmResult.map (fun l => ⟨l, "llm"⟩))

/-- Python truthiness of `final_label` in node_apply_and_update. -/
def truthy : Option String → Bool
  | none => false
  | some s => s != ""

/-- Python `final_label or "Uncategorized"` (agent.py line 422). -/
def orUncategorized : Option String → String
  | none => "Uncategorized"
  | some s => if s = "" then "Uncategorized" else s

/-- The per-suggestion store effect of node_apply_and_update (agent.py
lines 349-422): if approved with a truthy label, upsert a LabeledEmail with
`accepted=True`; elif not approved with a truthy label, append a rejected
record; in every case `mark_email_processed(msg_id, final_label or
"Uncategorized", approved)` runs last.  The Gmail label application is
external.  Each store call sits under a `try/except Exception` (the
rejected-store at lines 407-419, the whole suggestion at lines 350-425), so
the post-commit `NameError`s of `store_rejected_label` and
`mark_email_processed` are swallowed and only their sql effects remain. -/
def apply_decision {d : Nat} (s : MemoryStore d) (msg : Msg) (approved : Bool)
    (final_label : Option String) : MemoryStore d :=
  let s1 :=
    if approved && truthy final_label then
      upsert_labeled_email s
        ⟨msg.id, msg.subject, msg.sender, msg.snippet, final_label.getD "", true⟩
    else if !approved && truthy final_label then
      store_rejected_update s msg.id (msg.subject.getD "") (msg.sender.getD "")
        (msg.snippet.getD "") (final_label.getD "")
    else s
  mark_update s1 msg.id (orUncategorized final_label) approved

/-- The local centroid_scoring of _classify_single_email_with_rejected
(agent.py lines 685-709): same score map (no rejected filtering at all in
this variant), but the best candidate is found with `best_score`
initialised to 0.0 and updated only when `score > best_score and score >=
threshold`. -/
def centroid_scoring_cr {d : Nat} (m : String → Vec d) (s : MemoryStore d)
    (msg : Msg) (labels : List String) (θ : ℝ) :
    Option String × List (String × ℝ) :=
  if s.labeled.isEmpty then (none, [])
  else
    let q := embed_text m (joinTexts [msg.subject, msg.sender, msg.snippet])
    let score_map := labels.filterMap (fun label =>
      match get_label_centroids m s.labeled label with
      | none => none
      | some c => some (label, (dot q c + 1) / 2))
    let best := score_map.foldl
      (fun acc p => if p.2 > acc.2 ∧ p.2 ≥ θ then (some p.1, p.2) else acc)
      ((none : Option String), (0 : ℝ))
    (best.1, score_map)

/-- The generative tail of _classify_single_email_with_rejected (agent.py
lines 744-790).  The ollama call plus JSON parse is external; `llm1` is the
parsed `suggested_label` of the first call and `llm2` of the retry, `none`
when the call or the parse raises (the surrounding `except` then returns
`None`).  When the first suggestion is in the rejected set, the code
retries once with `force_different=True` and returns whatever non-empty
label the retry parses — without re-checking it against the rejected set. -/
def cr_llm_tier (rejected : List String) (llm1 llm2 : Option String) :
    Option Suggestion :=
  match llm1 with
  | none => none
  | some l1 =>
      if l1 ∈ rejected then
        match llm2 with
        | none => none
        | some l2 => if l2 ≠ "" then some ⟨l2, "llm"⟩ else none
      else if l1 ≠ "" then some ⟨l1, "llm"⟩ else none

/-- Tiers 2-3 of _classify_single_email_with_rejected (agent.py lines
725-790): the stored label for this exact message when truthy and not
rejected, else the generative tail. -/
def cr_memory_or_llm {d : Nat} (s : MemoryStore d) (msgId : String)
    (rejected : List String) (llm1 llm2 : Option String) : Option Suggestion :=
  match get_label_for_message s msgId with
  | some ml =>
      if ml ≠ "" ∧ ml ∉ rejected then some ⟨ml, "memory"⟩
      else cr_llm_tier rejected llm1 llm2
  | none => cr_llm_tier rejected llm1 llm2

/-- _classify_single_email_with_rejected (agent.py lines 664-790): centroid
best (kept only when truthy and not in the caller-supplied rejected list),
else stored per-message label, else the generative tail with one retry. -/
def classify_single_email_with_rejected {d : Nat} (m : String → Vec d)
    (s : MemoryStore d) (msg : Msg) (labels : List String)
    (rejected : List String) (θ : ℝ) (llm1 llm2 : Option String) :
    Option Suggestion :=
  match (centroid_scoring_cr m s msg labels θ).1 with
  | some bl =>
      if bl ≠ "" ∧ bl ∉ rejected then some ⟨bl, "centroid"⟩
      else cr_memory_or_llm s msg.id rejected llm1 llm2
  | none => cr_memory_or_llm s msg.id rejected llm1 llm2

/-- The fallback-embedding seed of MemoryStore._embed (memory_store.py line
115): `abs(hash(text)) % (2**32)`.  `pyHash` is CPython's built-in `hash`
on `str`, which is salted per interpreter process (PYTHONHASHSEED), so it
is a property of the run, not of the text alone. -/
def fallback_seed (pyHash : String → Int) (text : String) : Nat :=
  (pyHash text).natAbs % 2 ^ 32

/-- The fallback embedding of MemoryStore._embed (memory_store.py lines
113-119): a pseudo-random Gaussian vector drawn from
`np.random.default_rng(seed)`, normalised by `/(norm + 1e-8)`.  `prng`
models `rng.normal(size=(dim,))` as a function of the seed. -/
def fallback_vec {d : Nat} (prng : Nat → Vec d) (pyHash : String → Int)
    (text : String) : Vec d :=
  normalizeEps (prng (fallback_seed pyHash text))

/-! Concrete instances used to instantiate the theorems: a two-dimensional
embedding space, a model that encodes every text as the first basis vector,
a store holding one accepted example labeled "A", and variants. -/


/-- A sentence-transformer stub: every text encodes to the first basis
vector of a 2-dimensional space. -/
def mconst : String → Vec 2 := fun _ => basis 0

/-- The norm of `embed_text mconst t` for non-empty `t`:
`1/(1 + 1e-8)` after the epsilon-guarded normalisation. -/
def alphaU : ℝ := 1 / (1 + normEps)

/-- The scaling a single-example centroid picks up:
`alphaU/(alphaU + 1e-8)`. -/
def gammaU : ℝ := alphaU / (alphaU + normEps)


/-- One accepted example labeled "A". -/
def exA : LabeledEmail := ⟨"m1", some "hello", none, none, "A", true⟩

/-- Store with the one accepted "A" example and no rejections. -/
def storeA : MemoryStore 2 := ⟨[exA], []⟩

/-- A stored rejection of label "A" for a message with the same text. -/
def rejA : RejectedRecord := ⟨"m0", "hello", "", "", "A"⟩

/-- Store with the accepted "A" example and the "A" rejection. -/
def storeAR : MemoryStore 2 := ⟨[exA], [rejA]⟩

/-- The empty store. -/
def storeEmpty : MemoryStore 2 := ⟨[], []⟩

/-- A query message with the same text as the stored example. -/
def msgH : Msg := ⟨"q1", some "hello", none, none⟩

/-- A query message with no subject, sender or snippet. -/
def msgE : Msg := ⟨"q2", none, none, none⟩

/-- A sentence-transformer stub for the two-example centroid scenario:
text "s1" encodes to the first, every other text to the second basis
vector of the 2-dimensional space. -/
def mOrtho : String → Vec 2 := fun t => if t = "s1" then basis 0 else basis 1

/-- The accepted example of the two-example centroid scenario (label "B"). -/
def exOrtho1 : LabeledEmail := ⟨"o1", some "s1", none, none, "B", true⟩

/-- The non-accepted example of the two-example centroid scenario. -/
def exOrtho2 : LabeledEmail := ⟨"o2", some "s2", none, none, "B", false⟩

/-- The unnormalised 5-to-1 combination of the two basis directions that
the two-example centroid must be parallel to. -/
def w51 : Vec 2 := fun j => 5 * basis 0 j + basis 1 j

/-- Modelled from the spec's words (§3 LabelCentroid, §8 "Centroid
weighting"), for comparison with `get_label_centroids`: the exactly
unit-normalised (weight-5, weight-1) weighted average of two embeddings. -/
def spec_unit_weighted_average {d : Nat} (v w : Vec d) : Vec d :=
  scale (1 / npNorm (fun i => (5 * v i + 1 * w i) / 6)) (fun i => (5 * v i + 1 * w i) / 6)

end

/-! Basic facts about the vector operations. -/

theorem dot_scale_left {d : Nat} (a : ℝ) (v w : Vec d) :
    dot (scale a v) w = a * dot v w := by
  simp [dot, scale, Finset.mul_sum, mul_assoc]

theorem dot_scale_right {d : Nat} (a : ℝ) (v w : Vec d) :
    dot v (scale a w) = a * dot v w := by
  simp [dot, scale, Finset.mul_sum, mul_left_comm]

theorem dot_basis_self {d : Nat} (i : Fin d) : dot (basis i) (basis i) = 1 := by
  have h : ∀ j : Fin d,
      (if j = i then (1 : ℝ) else 0) * (if j = i then 1 else 0)
        = if j = i then 1 else 0 := by
    intro j; by_cases hj : j = i <;> simp [hj]
  simp only [dot, basis, h]
  simp

theorem dot_zero_left {d : Nat} (v : Vec d) : dot (zeroVec d) v = 0 := by
  simp [dot, zeroVec]

theorem scale_scale {d : Nat} (a b : ℝ) (v : Vec d) :
    scale a (scale b v) = scale (a * b) v := by
  funext i; simp [scale]; ring

theorem basis_eq_scale_one {d : Nat} (i : Fin d) : (basis i : Vec d) = scale 1 (basis i) := by
  funext j; simp [scale]

theorem npNorm_scale_basis {d : Nat} (i : Fin d) (a : ℝ) (h : 0 ≤ a) :
    npNorm (scale a (basis i)) = a := by
  unfold npNorm
  rw [dot_scale_left, dot_scale_right, dot_basis_self, mul_one, Real.sqrt_mul_self h]

theorem cosSim_scale_basis {d : Nat} (i : Fin d) (a b : ℝ) (ha : 0 < a) (hb : 0 < b) :
    cosSim (scale a (basis i)) (scale b (basis i)) = 1 := by
  unfold cosSim
  rw [dot_scale_left, dot_scale_right, dot_basis_self, mul_one,
    npNorm_scale_basis i a ha.le, npNorm_scale_basis i b hb.le]
  exact div_self (mul_ne_zero ha.ne' hb.ne')

theorem normEps_pos : (0 : ℝ) < normEps := by norm_num [normEps]

theorem normalizeEps_scale_basis {d : Nat} (i : Fin d) (a : ℝ) (h : 0 ≤ a) :
    normalizeEps (scale a (basis i)) = scale (a / (a + normEps)) (basis i) := by
  unfold normalizeEps
  rw [npNorm_scale_basis i a h, scale_scale,
    show 1 / (a + normEps) * a = a / (a + normEps) by ring]

/-! Facts about `argmaxFirst` and `upsertRow`. -/

theorem argmaxFirst_cons_of_not_lt {α β : Type} [Preorder β] (p : α × β)
    (t : List (α × β)) (h : ∀ q ∈ t, ¬ p.2 < q.2) :
    argmaxFirst (p :: t) = some p := by
  suffices key : ∀ (t : List (α × β)), (∀ q ∈ t, ¬ p.2 < q.2) →
      t.foldl (fun acc q =>
        match acc with
        | none => some q
        | some r => if r.2 < q.2 then some q else some r) (some p) = some p by
    simpa [argmaxFirst] using key t h
  intro t
  induction t with
  | nil => intro _; rfl
  | cons q t ih =>
      intro hq
      have h1 : ¬ p.2 < q.2 := hq q (by simp)
      simp only [List.foldl_cons, if_neg h1]
      exact ih (fun r hr => hq r (by simp [hr]))

theorem argmaxFirst_singleton {α β : Type} [Preorder β] (p : α × β) :
    argmaxFirst [p] = some p := by
  exact argmaxFirst_cons_of_not_lt p [] (by simp)

theorem beq_self_message_id (e : LabeledEmail) : (e.message_id == e.message_id) = true := by
  simp

theorem upsertRow_of_any (l : List LabeledEmail) (e : LabeledEmail)
    (h : l.any (fun r => r.message_id == e.message_id) = true) :
    upsertRow l e = l.map (fun r => if r.message_id == e.message_id then e else r) := by
  unfold upsertRow; rw [if_pos h]

theorem upsertRow_of_not_any (l : List LabeledEmail) (e : LabeledEmail)
    (h : ¬ l.any (fun r => r.message_id == e.message_id) = true) :
    upsertRow l e = l ++ [e] := by
  unfold upsertRow; rw [if_neg h]

theorem any_upsertRow (l : List LabeledEmail) (e : LabeledEmail) :
    (upsertRow l e).any (fun r => r.message_id == e.message_id) = true := by
  by_cases h : l.any (fun r => r.message_id == e.message_id) = true
  · rw [upsertRow_of_any l e h]
    rcases List.any_eq_true.mp h with ⟨r, hr, hbeq⟩
    refine List.any_eq_true.mpr ⟨e, ?_, by simp⟩
    refine List.mem_map.mpr ⟨r, hr, ?_⟩
    simp [hbeq]
  · rw [upsertRow_of_not_any l e h]
    exact List.any_eq_true.mpr ⟨e, by simp, by simp⟩

theorem find?_upsertRow (l : List LabeledEmail) (e : LabeledEmail) :
    (upsertRow l e).find? (fun r => r.message_id == e.message_id) = some e := by
  by_cases h : l.any (fun r => r.message_id == e.message_id) = true
  · rw [upsertRow_of_any l e h]
    induction l with
    | nil => simp at h
    | cons r t ih =>
        by_cases hr : (r.message_id == e.message_id) = true
        · simp [List.find?, hr]
        · have ht : t.any (fun r => r.message_id == e.message_id) = true := by
            simp only [List.any_cons, Bool.or_eq_true] at h
            exact h.resolve_left hr
          simp only [List.map_cons, List.find?, if_neg hr, hr]
          simpa [hr] using ih ht
  · rw [upsertRow_of_not_any l e h]
    have hnone : l.find? (fun r => r.message_id == e.message_id) = none := by
      rw [List.find?_eq_none]
      intro r hr hbeq
      exact h (List.any_eq_true.mpr ⟨r, hr, hbeq⟩)
    rw [List.find?_append, hnone]
    simp [List.find?]

theorem upsertRow_idem (l : List LabeledEmail) (e : LabeledEmail) :
    upsertRow (upsertRow l e) e = upsertRow l e := by
  by_cases h : l.any (fun r => r.message_id == e.message_id) = true
  · have h1 := upsertRow_of_any l e h
    have h2 := any_upsertRow l e
    rw [h1] at h2
    rw [h1, upsertRow_of_any _ e h2, List.map_map]
    refine List.map_congr_left ?_
    intro r _
    by_cases hr : (r.message_id == e.message_id) = true <;>
      simp [Function.comp, hr]
  · have h1 := upsertRow_of_not_any l e h
    have h2 := any_upsertRow l e
    rw [h1] at h2
    rw [h1, upsertRow_of_any _ e h2, List.map_append]
    have hl : l.map (fun r => if r.message_id == e.message_id then e else r) = l := by
      calc l.map (fun r => if r.message_id == e.message_id then e else r)
          = l.map id := List.map_congr_left (by
            intro r hr
            have : ¬ (r.message_id == e.message_id) = true := by
              intro hc; exact h (List.any_eq_true.mpr ⟨r, hr, hc⟩)
            simp [this])
        _ = l := List.map_id l
    rw [hl]
    simp

theorem argmaxFirst_mem {α β : Type} [Preorder β] (l : List (α × β)) (p : α × β)
    (h : argmaxFirst l = some p) : p ∈ l := by
  suffices key : ∀ (l : List (α × β)) (acc : Option (α × β)),
      l.foldl (fun acc q =>
        match acc with
        | none => some q
        | some r => if r.2 < q.2 then some q else some r) acc = some p →
      p ∈ l ∨ acc = some p by
    rcases key l none (by simpa [argmaxFirst] using h) with h1 | h2
    · exact h1
    · simp at h2
  intro l
  induction l with
  | nil => intro acc h; right; exact h
  | cons q t ih =>
      intro acc h
      rw [List.foldl_cons] at h
      rcases ih _ h with h1 | h2
      · exact Or.inl (List.mem_cons_of_mem q h1)
      · cases acc with
        | none =>
            left
            have : q = p := by simpa using h2
            exact this ▸ List.mem_cons_self q t
        | some r =>
            by_cases hlt : r.2 < q.2
            · left
              have : q = p := by simpa [hlt] using h2
              exact this ▸ List.mem_cons_self q t
            · right
              simpa [hlt] using h2

theorem cosSim_zero_left {d : Nat} (v : Vec d) : cosSim (zeroVec d) v = 0 := by
  unfold cosSim
  rw [dot_zero_left, zero_div]

theorem joinTexts_getD (a b c : Option String) :
    joinTexts [some (a.getD ""), some (b.getD ""), some (c.getD "")]
      = joinTexts [a, b, c] := by
  cases a <;> cases b <;> cases c <;> simp [joinTexts, List.filter_cons]

theorem rejected_any_of_ok {d : Nat} (m : String → Vec d) (s : MemoryStore d)
    (su se sn : String) (θ : ℝ) (S : List String)
    (h : get_rejected_labels_for_similar_emails m s su se sn θ = Except.ok S) :
    s.rejected.any (fun r => decide (cosSim
      (embed_text m (joinTexts [some su, some se, some sn]))
      (embed_text m (rejText r)) ≥ θ)) = false := by
  by_cases hany : s.rejected.any (fun r => decide (cosSim
      (embed_text m (joinTexts [some su, some se, some sn]))
      (embed_text m (rejText r)) ≥ θ)) = true
  · unfold get_rejected_labels_for_similar_emails at h
    rw [if_pos hany] at h
    simp at h
  · revert hany
    cases s.rejected.any (fun r => decide (cosSim
        (embed_text m (joinTexts [some su, some se, some sn]))
        (embed_text m (rejText r)) ≥ θ)) <;> simp

theorem rejected_ok_empty {d : Nat} (m : String → Vec d) (s : MemoryStore d)
    (su se sn : String) (θ : ℝ) (S : List String)
    (h : get_rejected_labels_for_similar_emails m s su se sn θ = Except.ok S) :
    S = [] := by
  have hany := rejected_any_of_ok m s su se sn θ S h
  unfold get_rejected_labels_for_similar_emails at h
  rw [if_neg (by rw [hany]; simp)] at h
  have hS := (Except.ok.inj h).symm
  rw [hS]
  simp only [get_rejected_labels_core]
  rw [List.filter_eq_nil_iff.mpr ?_]
  · rfl
  · intro r hr hc
    have := List.any_eq_false.mp hany r hr
    exact this hc

theorem rejected_call_of_empty_query {d : Nat} (m : String → Vec d)
    (s : MemoryStore d) (su se sn : String) (θ : ℝ)
    (hj : joinTexts [some su, some se, some sn] = "") (hθ : 0 < θ) :
    get_rejected_labels_for_similar_emails m s su se sn θ = Except.ok [] := by
  have hfalse : ∀ r : RejectedRecord,
      (decide (cosSim (embed_text m (joinTexts [some su, some se, some sn]))
        (embed_text m (rejText r)) ≥ θ)) = false := by
    intro r
    apply decide_eq_false
    rw [hj, show embed_text m "" = zeroVec d by simp [embed_text], cosSim_zero_left]
    exact not_le.mpr hθ
  have hany : s.rejected.any (fun r => decide (cosSim
      (embed_text m (joinTexts [some su, some se, some sn]))
      (embed_text m (rejText r)) ≥ θ)) = false :=
    List.any_eq_false.mpr (fun r _ => by rw [hfalse r]; simp)
  unfold get_rejected_labels_for_similar_emails
  rw [if_neg (by rw [hany]; simp)]
  congr 1
  simp only [get_rejected_labels_core]
  rw [List.filter_eq_nil_iff.mpr (fun r _ hc => by rw [hfalse r] at hc; simp at hc)]
  rfl

theorem centroid_scoring_of_argmax {d : Nat} (m : String → Vec d) (s : MemoryStore d)
    (msg : Msg) (labels : List String) (θ : ℝ) (rejected : List String)
    (l : String) (b : ℝ)
    (hrows : s.labeled.isEmpty = false)
    (hrej : get_rejected_labels_for_similar_emails m s (msg.subject.getD "")
        (msg.sender.getD "") (msg.snippet.getD "") 0.7 = Except.ok rejected)
    (hbest : argmaxFirst (score_map_with m s msg labels rejected) = some (l, b)) :
    centroid_scoring m s msg labels θ =
      Except.ok (if b ≥ θ then some l else none,
        score_map_with m s msg labels rejected) := by
  have hne : (score_map_with m s msg labels rejected).isEmpty = false := by
    cases hsm : score_map_with m s msg labels rejected with
    | nil => rw [hsm] at hbest; simp [argmaxFirst] at hbest
    | cons a t => simp
  by_cases hbθ : b ≥ θ
  · simp [centroid_scoring, hrej, hbest, hrows, hne, hbθ]
  · simp [centroid_scoring, hrej, hbest, hrows, hne, hbθ]

theorem alphaU_pos : (0 : ℝ) < alphaU := by norm_num [alphaU, normEps]

theorem alphaU_lt_one : alphaU < 1 := by norm_num [alphaU, normEps]

theorem gammaU_pos : (0 : ℝ) < gammaU := by
  unfold gammaU
  exact div_pos alphaU_pos (add_pos alphaU_pos normEps_pos)

theorem gammaU_lt_one : gammaU < 1 := by
  unfold gammaU
  rw [div_lt_one (add_pos alphaU_pos normEps_pos)]
  linarith [normEps_pos]

theorem embed_mconst (t : String) (h : t ≠ "") :
    embed_text mconst t = scale alphaU (basis 0) := by
  unfold embed_text mconst
  rw [if_neg h]
  conv_lhs => rw [basis_eq_scale_one]
  rw [normalizeEps_scale_basis _ _ zero_le_one]
  rfl

theorem get_label_centroids_nil {d : Nat} (m : String → Vec d) (L : String) :
    get_label_centroids m [] L = none := rfl

theorem get_label_centroids_single {d : Nat} (m : String → Vec d) (r : LabeledEmail)
    (L : String) (i : Fin d) (a : ℝ) (hL : r.applied_label = L)
    (he : embed_text m (rowText r) = scale a (basis i)) (ha : 0 ≤ a) :
    get_label_centroids m [r] L = some (scale (a / (a + normEps)) (basis i)) := by
  have hw0 : (if r.accepted then (5 : ℝ) else 1) ≠ 0 := by
    by_cases hacc : r.accepted <;> simp [hacc]
  have key : ∀ wm : Vec d, wm = scale a (basis i) →
      (some (scale (1 / (npNorm wm + normEps)) wm) : Option (Vec d))
        = some (scale (a / (a + normEps)) (basis i)) := by
    intro wm hwm
    rw [hwm, npNorm_scale_basis i a ha, scale_scale,
      show 1 / (a + normEps) * a = a / (a + normEps) by ring]
  simp only [get_label_centroids]
  rw [show List.filter (fun x => x.applied_label == L) [r] = [r] by simp [hL]]
  simp only [List.map_cons, List.map_nil, List.isEmpty_cons, Bool.false_eq_true,
    if_false, List.sum_cons, List.sum_nil, add_zero, he]
  apply key
  funext j
  simp only [scale]
  rw [div_self hw0]
  ring

theorem rowText_exA : rowText exA = "hello" := rfl

theorem centroidA :
    get_label_centroids mconst storeA.labeled "A" = some (scale gammaU (basis 0)) := by
  show get_label_centroids mconst [exA] "A" = _
  rw [get_label_centroids_single mconst exA "A" 0 alphaU rfl
    (by rw [rowText_exA]; exact embed_mconst "hello" (by decide)) alphaU_pos.le]
  rfl

theorem embed_query_msgH :
    embed_text mconst (joinTexts [msgH.subject, msgH.sender, msgH.snippet])
      = scale alphaU (basis 0) := by
  exact embed_mconst _ (by decide)

theorem dot_alpha_gamma :
    dot (scale alphaU (basis (0 : Fin 2))) (scale gammaU (basis 0))
      = alphaU * gammaU := by
  rw [dot_scale_left, dot_scale_right, dot_basis_self, mul_one]

theorem cosSim_storeAR_query :
    cosSim (embed_text mconst (joinTexts [some "hello", some "", some ""]))
      (embed_text mconst (rejText rejA)) = 1 := by
  have h1 : embed_text mconst (joinTexts [some "hello", some "", some ""])
      = scale alphaU (basis 0) := embed_mconst _ (by decide)
  have h2 : embed_text mconst (rejText rejA) = scale alphaU (basis 0) :=
    embed_mconst _ (by decide)
  rw [h1, h2]
  exact cosSim_scale_basis 0 alphaU alphaU alphaU_pos alphaU_pos

theorem any_AR :
    storeAR.rejected.any (fun r => decide (cosSim
      (embed_text mconst (joinTexts [some "hello", some "", some ""]))
      (embed_text mconst (rejText r)) ≥ 0.7)) = true := by
  rw [show storeAR.rejected = [rejA] from rfl]
  simp only [List.any_cons, List.any_nil, Bool.or_false]
  rw [decide_eq_true_eq, cosSim_storeAR_query]
  norm_num

theorem rejected_call_AR :
    get_rejected_labels_for_similar_emails mconst storeAR "hello" "" "" 0.7
      = Except.error PyError.nameError := by
  unfold get_rejected_labels_for_similar_emails
  rw [if_pos any_AR]

theorem score_map_A :
    score_map_with mconst storeA msgH ["A"] []
      = [("A", (alphaU * gammaU + 1) / 2)] := by
  simp only [score_map_with]
  simp only [List.not_mem_nil, if_false, centroidA, List.filterMap_cons,
    List.filterMap_nil, embed_query_msgH]
  rw [dot_alpha_gamma]

/-! The claims. -/

/-- C5: Tier 1 maps each candidate label's raw cosine similarity `s` to
`(s+1)/2` (the scores `score_map_with` holds) and, provided the
rejected-labels lookup returned (rather than raised), produces a Resolved
result with source "centroid" exactly when the best candidate's mapped
score is at least the configured threshold: a best score exactly equal to
the threshold is accepted (the comparison is `>=`), and a best score
strictly below the threshold yields no tier-1 result and the classifier
falls through to tier 2 (its result, if any, does not carry source
"centroid").  On stores where the lookup raises, node_classify crashes
instead (see the C1 material), which is why the statement is conditioned
on the successful call. -/
theorem C5_threshold_boundary {d : Nat} (m : String → Vec d) (s : MemoryStore d)
    (msg : Msg) (labels : List String) (θ : ℝ) (rejected : List String)
    (l : String) (b : ℝ)
    (hrows : s.labeled.isEmpty = false)
    (hrej : get_rejected_labels_for_similar_emails m s (msg.subject.getD "")
        (msg.sender.getD "") (msg.snippet.getD "") 0.7 = Except.ok rejected)
    (hbest : argmaxFirst (score_map_with m s msg labels rejected) = some (l, b)) :
    (b ≥ θ → ∀ llm, classify_message m s labels θ msg llm
        = Except.ok (some ⟨l, "centroid"⟩))
    ∧ (b < θ → centroid_scoring m s msg labels θ
          = Except.ok (none, score_map_with m s msg labels rejected)
        ∧ ∀ llm sug, classify_message m s labels θ msg llm = Except.ok (some sug) →
            sug.source ≠ "centroid") := by
  constructor
  · intro hb llm
    have hcs := centroid_scoring_of_argmax m s msg labels θ rejected l b
      hrows hrej hbest
    rw [if_pos hb] at hcs
    simp [classify_message, hcs]
  · intro hb
    have hcs := centroid_scoring_of_argmax m s msg labels θ rejected l b
      hrows hrej hbest
    rw [if_neg (not_le.mpr hb)] at hcs
    refine ⟨by rw [hcs], ?_⟩
    intro llm sug h
    simp only [classify_message, hcs, Except.ok.injEq] at h
    cases hmaj : majority_label_from_similar (get_messages_by_ids s
        ((similar m s msg.subject msg.sender msg.snippet 5).map Prod.fst)) with
    | none =>
        simp only [hmaj] at h
        rcases Option.map_eq_some'.mp h with ⟨a, _, ha⟩
        rw [← ha]
        simp
    | some lb =>
        simp only [hmaj] at h
        by_cases hcond : lb ≠ "" ∧ lb ∈ labels
        · rw [if_pos hcond] at h
          have := Option.some.inj h
          rw [← this]
          simp
        · rw [if_neg hcond] at h
          rcases Option.map_eq_some'.mp h with ⟨a, _, ha⟩
          rw [← ha]
          simp

/-- Witness for C5: with the one-example store (no stored rejections, so
the lookup returns the empty set), the best mapped score is
`(alphaU*gammaU+1)/2`; with the threshold set exactly there the classifier
resolves with source "centroid", and with a strictly larger threshold
tier 1 yields no label. -/
theorem C5_witness :
    (∀ llm, classify_message mconst storeA ["A"] ((alphaU * gammaU + 1) / 2) msgH llm
        = Except.ok (some ⟨"A", "centroid"⟩))
    ∧ centroid_scoring mconst storeA msgH ["A"] 1
        = Except.ok (none, score_map_with mconst storeA msgH ["A"] []) := by
  have hrej : get_rejected_labels_for_similar_emails mconst storeA
      (msgH.subject.getD "") (msgH.sender.getD "") (msgH.snippet.getD "") 0.7
      = Except.ok [] := rfl
  have hbest : argmaxFirst (score_map_with mconst storeA msgH ["A"] [])
      = some ("A", (alphaU * gammaU + 1) / 2) := by
    rw [score_map_A]
    exact argmaxFirst_singleton _
  constructor
  · exact (C5_threshold_boundary mconst storeA msgH ["A"]
      ((alphaU * gammaU + 1) / 2) [] "A" ((alphaU * gammaU + 1) / 2)
      rfl hrej hbest).1 (le_refl _)
  · refine ((C5_threshold_boundary mconst storeA msgH ["A"] 1 [] "A"
      ((alphaU * gammaU + 1) / 2) rfl hrej hbest).2 ?_).1
    have h1 : alphaU * gammaU < 1 := by
      nlinarith [alphaU_pos, alphaU_lt_one, gammaU_pos, gammaU_lt_one]
    linarith

/-- C1 (the code-level facts behind the bug report): in the very scenario
the claim quantifies over — a stored rejected record similar to the query
(here identical text, cosine similarity exactly 1 ≥ 0.7) — node_classify
cannot classify at all: the rejected-labels lookup raises `NameError`
(memory_store.py line 318, bare `logger`), the call at agent.py line 154
is unguarded, so tier 1 errors out and the message gets no suggestion of
any kind; and whenever the lookup does return, the returned set is
necessarily empty, so no label is ever "contained in the returned set".
(Independently, the tier-2 majority code at agent.py lines 228-246 has no
rejected-label filter, so even with the logging repaired the exclusion the
claim states would hold only for tier 1.) -/
theorem C1_rejected_similar_crashes :
    cosSim (embed_text mconst (joinTexts [some "hello", some "", some ""]))
        (embed_text mconst (rejText rejA)) = 1
    ∧ centroid_scoring mconst storeAR msgH ["A"] 0.4
        = Except.error PyError.nameError
    ∧ classify_message mconst storeAR ["A"] 0.4 msgH none
        = Except.error PyError.nameError
    ∧ ∀ (d : Nat) (m : String → Vec d) (s : MemoryStore d)
        (su se sn : String) (θ : ℝ) (S : List String),
        get_rejected_labels_for_similar_emails m s su se sn θ = Except.ok S →
          S = [] := by
  have hcs : centroid_scoring mconst storeAR msgH ["A"] 0.4
      = Except.error PyError.nameError := by
    simp only [centroid_scoring]
    rw [if_neg (show ¬ storeAR.labeled.isEmpty = true by decide)]
    rw [show (msgH.subject.getD "") = "hello" from rfl,
      show (msgH.sender.getD "") = "" from rfl,
      show (msgH.snippet.getD "") = "" from rfl]
    simp only [rejected_call_AR]
  refine ⟨cosSim_storeAR_query, hcs, ?_, ?_⟩
  · simp only [classify_message, hcs]
  · intro d m s su se sn θ S h
    exact rejected_ok_empty m s su se sn θ S h

theorem score_map_E :
    score_map_with mconst storeA msgE ["A"] [] = [("A", (1 : ℝ) / 2)] := by
  simp only [score_map_with]
  simp only [List.not_mem_nil, if_false, centroidA, List.filterMap_cons,
    List.filterMap_nil]
  rw [show joinTexts [msgE.subject, msgE.sender, msgE.snippet] = "" from rfl]
  rw [show embed_text mconst "" = zeroVec 2 from rfl]
  rw [dot_zero_left]
  norm_num

/-- C7 (amended): the resolver does NOT treat the all-zero embedding as
"no signal".  For a message whose joined text is empty, the query embeds
to the zero vector, so every similarity against stored rejections is 0
(the rejected-labels lookup therefore returns the empty set and cannot
raise), every candidate's mapped score is `(0+1)/2 = 0.5`, and whenever
the threshold is at most 0.5 (the default is 0.40) the centroid tier
resolves with source "centroid". -/
theorem C7_zero_embedding_scores_half {d : Nat} (m : String → Vec d)
    (s : MemoryStore d) (msg : Msg) (labels : List String) (θ : ℝ)
    (hrows : s.labeled.isEmpty = false)
    (hjoin : joinTexts [msg.subject, msg.sender, msg.snippet] = "")
    (hθ : θ ≤ 1 / 2)
    (hmap : score_map_with m s msg labels [] ≠ []) :
    ∃ l, centroid_scoring m s msg labels θ
        = Except.ok (some l, score_map_with m s msg labels [])
      ∧ ∀ llm, classify_message m s labels θ msg llm
          = Except.ok (some ⟨l, "centroid"⟩) := by
  have hrej : get_rejected_labels_for_similar_emails m s (msg.subject.getD "")
      (msg.sender.getD "") (msg.snippet.getD "") 0.7 = Except.ok [] := by
    refine rejected_call_of_empty_query m s _ _ _ 0.7 ?_ (by norm_num)
    rw [joinTexts_getD, hjoin]
  have hall : ∀ p ∈ score_map_with m s msg labels [], p.2 = 1 / 2 := by
    intro p hp
    simp only [score_map_with] at hp
    rcases List.mem_filterMap.mp hp with ⟨label, _, hf⟩
    rw [if_neg (List.not_mem_nil label)] at hf
    cases hc : get_label_centroids m s.labeled label with
    | none => rw [hc] at hf; simp at hf
    | some c =>
        rw [hc] at hf
        have hpe := (Option.some.inj hf).symm
        rw [hpe, hjoin]
        rw [show embed_text m "" = zeroVec d by simp [embed_text]]
        rw [dot_zero_left]
        norm_num
  cases hsm : score_map_with m s msg labels [] with
  | nil => exact absurd hsm hmap
  | cons p t =>
      have hp2 : p.2 = 1 / 2 := hall p (by rw [hsm]; exact List.mem_cons_self p t)
      have hbest : argmaxFirst (p :: t) = some p := by
        refine argmaxFirst_cons_of_not_lt p t ?_
        intro q hq
        have hq2 : q.2 = 1 / 2 := hall q (by rw [hsm]; exact List.mem_cons_of_mem p hq)
        rw [hp2, hq2]
        exact lt_irrefl _
      have hbest2 : argmaxFirst (score_map_with m s msg labels [])
          = some (p.1, p.2) := by
        rw [hsm, Prod.mk.eta]
        exact hbest
      have hge : p.2 ≥ θ := by rw [hp2]; exact hθ
      have hcs := centroid_scoring_of_argmax m s msg labels θ [] p.1 p.2
        hrows hrej hbest2
      rw [if_pos hge] at hcs
      exact ⟨p.1, by rw [hcs, hsm], fun llm => by simp [classify_message, hcs]⟩

/-- Witness for C7 (amended): the all-empty message against the
one-example store at the default threshold 0.40. -/
theorem C7_witness :
    joinTexts [msgE.subject, msgE.sender, msgE.snippet] = ""
    ∧ ∃ l, centroid_scoring mconst storeA msgE ["A"] 0.40
        = Except.ok (some l, score_map_with mconst storeA msgE ["A"] []) := by
  refine ⟨rfl, ?_⟩
  rcases C7_zero_embedding_scores_half mconst storeA msgE ["A"] 0.40 rfl rfl
      (by norm_num) (by rw [score_map_E]; simp) with ⟨l, h1, _⟩
  exact ⟨l, h1⟩

/-- Counterexample to C7 as stated: the message with empty subject, sender
and snippet embeds to the zero vector, yet the centroid tier resolves it
with source "centroid" (score 0.5 at least the default threshold 0.40). -/
theorem C7_counterexample :
    joinTexts [msgE.subject, msgE.sender, msgE.snippet] = ""
    ∧ embed_text mconst (joinTexts [msgE.subject, msgE.sender, msgE.snippet])
        = zeroVec 2
    ∧ classify_message mconst storeA ["A"] 0.40 msgE none
        = Except.ok (some ⟨"A", "centroid"⟩) := by
  refine ⟨rfl, rfl, ?_⟩
  have hrej : get_rejected_labels_for_similar_emails mconst storeA
      (msgE.subject.getD "") (msgE.sender.getD "") (msgE.snippet.getD "") 0.7
      = Except.ok [] := rfl
  have hbest : argmaxFirst (score_map_with mconst storeA msgE ["A"] [])
      = some ("A", (1 : ℝ) / 2) := by
    rw [score_map_E]
    exact argmaxFirst_singleton _
  have hcs := centroid_scoring_of_argmax mconst storeA msgE ["A"] 0.40 []
      "A" ((1 : ℝ) / 2) rfl hrej hbest
  rw [if_pos (by norm_num)] at hcs
  simp [classify_message, hcs]

/-- C2 (amended): handling a rejected human decision appends exactly one
RejectedLabelRecord, and `store_rejected_label` itself leaves the
LabeledExample table unchanged; but the `mark_email_processed` call that
ends the flow upserts a LabeledExample row for the message (text fields
nulled, `accepted=false`), so the flow as a whole does create/update a
LabeledExample. -/
theorem C2_rejected_path_effects {d : Nat} (s : MemoryStore d) (msg : Msg)
    (label : String) (hl : label ≠ "") :
    (apply_decision s msg false (some label)).rejected
      = s.rejected ++ [⟨msg.id, msg.subject.getD "", msg.sender.getD "",
          msg.snippet.getD "", label⟩]
    ∧ (store_rejected_update s msg.id (msg.subject.getD "") (msg.sender.getD "")
        (msg.snippet.getD "") label).labeled = s.labeled
    ∧ (apply_decision s msg false (some label)).labeled
        = upsertRow s.labeled ⟨msg.id, none, none, none, label, false⟩ := by
  have ht : truthy (some label) = true := by simp [truthy, hl]
  have hu : orUncategorized (some label) = label := by simp [orUncategorized, hl]
  refine ⟨?_, rfl, ?_⟩
  · simp [apply_decision, ht, hu, mark_update, store_rejected_update]
  · simp [apply_decision, ht, hu, mark_update, store_rejected_update]

/-- Witness for C2 (amended) at a concrete input. -/
theorem C2_witness :
    (apply_decision storeEmpty msgH false (some "A")).rejected
      = storeEmpty.rejected ++ [⟨msgH.id, msgH.subject.getD "", msgH.sender.getD "",
          msgH.snippet.getD "", "A"⟩]
    ∧ (store_rejected_update storeEmpty msgH.id (msgH.subject.getD "")
        (msgH.sender.getD "") (msgH.snippet.getD "") "A").labeled = storeEmpty.labeled
    ∧ (apply_decision storeEmpty msgH false (some "A")).labeled
        = upsertRow storeEmpty.labeled ⟨msgH.id, none, none, none, "A", false⟩ :=
  C2_rejected_path_effects storeEmpty msgH "A" (by decide)

/-- Counterexample to C2 as stated: rejecting label "A" for a message on an
empty store appends the one rejected record, but it also creates a
LabeledExample row for the message (via `mark_email_processed`), so the
"does not create or update any LabeledExample for that decision" part of
the claim is false. -/
theorem C2_counterexample :
    (apply_decision storeEmpty msgH false (some "A")).rejected
      = [⟨"q1", "hello", "", "", "A"⟩]
    ∧ (apply_decision storeEmpty msgH false (some "A")).labeled
      = [⟨"q1", none, none, none, "A", false⟩]
    ∧ (apply_decision storeEmpty msgH false (some "A")).labeled ≠ [] := by
  refine ⟨rfl, rfl, ?_⟩
  intro h
  rw [show (apply_decision storeEmpty msgH false (some "A")).labeled
      = [⟨"q1", none, none, none, "A", false⟩] from rfl] at h
  simp at h

/-- C10: `mark_email_processed` replaces the entire LabeledExample row with
one whose subject, sender and snippet are NULL, so after the approved flow
(upsert of the full example, then mark) only `message_id`, `applied_label`
and `accepted` survive in the stored row. -/
theorem C10_mark_replaces_row {d : Nat} :
    (∀ (s : MemoryStore d) (e : LabeledEmail) (l : String) (a : Bool),
      ((mark_update (upsert_labeled_email s e) e.message_id l a).labeled.find?
        (fun r => r.message_id == e.message_id))
        = some ⟨e.message_id, none, none, none, l, a⟩)
    ∧ (∀ (s : MemoryStore d) (msg : Msg),
      ((apply_decision s msg true (some "Work")).labeled.find?
        (fun r => r.message_id == msg.id))
        = some ⟨msg.id, none, none, none, "Work", true⟩) := by
  constructor
  · intro s e l a
    simp only [mark_update, upsert_labeled_email]
    exact find?_upsertRow (upsertRow s.labeled e)
      ⟨e.message_id, none, none, none, l, a⟩
  · intro s msg
    simp only [apply_decision]
    rw [if_pos (show (true && truthy (some "Work")) = true from rfl)]
    rw [show orUncategorized (some "Work") = "Work" from rfl]
    simp only [mark_update, upsert_labeled_email]
    exact find?_upsertRow _ ⟨msg.id, none, none, none, "Work", true⟩

/-- C9: upserting the same LabeledExample twice leaves the Store, every
computed centroid, the rebuilt Similarity Index, and every top-k similarity
query identical to the state after the first upsert. -/
theorem C9_upsert_idempotent {d : Nat} (m : String → Vec d) (s : MemoryStore d)
    (e : LabeledEmail) :
    upsert_labeled_email (upsert_labeled_email s e) e = upsert_labeled_email s e
    ∧ (∀ L, get_label_centroids m
          (upsert_labeled_email (upsert_labeled_email s e) e).labeled L
        = get_label_centroids m (upsert_labeled_email s e).labeled L)
    ∧ rebuild_index m (upsert_labeled_email (upsert_labeled_email s e) e).labeled
        = rebuild_index m (upsert_labeled_email s e).labeled
    ∧ ∀ (subject sender snippet : Option String) (k : Nat),
        similar m (upsert_labeled_email (upsert_labeled_email s e) e)
            subject sender snippet k
          = similar m (upsert_labeled_email s e) subject sender snippet k := by
  have h : upsert_labeled_email (upsert_labeled_email s e) e
      = upsert_labeled_email s e := by
    simp only [upsert_labeled_email]
    rw [upsertRow_idem]
  exact ⟨h, fun L => by rw [h], by rw [h], fun a b c k => by rw [h]⟩

/-- C3: `mark_email_processed` and `store_rejected_label` always raise
`NameError` (the bare name `logger` is not defined at module level of
memory_store.py) after their sql commit, so the state change persists even
though the call errors; `get_rejected_labels_for_similar_emails` raises the
same `NameError` exactly when at least one stored rejected record clears
the similarity threshold (the `logger.info` on the first such record). -/
theorem C3_store_logging_raises {d : Nat} :
    (∀ (s : MemoryStore d) (message_id applied_label : String) (accepted : Bool),
      (mark_email_processed s message_id applied_label accepted).2
          = Except.error PyError.nameError
        ∧ (mark_email_processed s message_id applied_label accepted).1
          = mark_update s message_id applied_label accepted)
    ∧ (∀ (s : MemoryStore d) (message_id subject sender snippet rejected_label : String),
      (store_rejected_label s message_id subject sender snippet rejected_label).2
          = Except.error PyError.nameError
        ∧ (store_rejected_label s message_id subject sender snippet rejected_label).1
          = store_rejected_update s message_id subject sender snippet rejected_label)
    ∧ (∀ (m : String → Vec d) (s : MemoryStore d)
        (subject sender snippet : String) (θ : ℝ),
      s.rejected.any (fun r => decide (cosSim
          (embed_text m (joinTexts [some subject, some sender, some snippet]))
          (embed_text m (rejText r)) ≥ θ)) = true →
        get_rejected_labels_for_similar_emails m s subject sender snippet θ
          = Except.error PyError.nameError) := by
  refine ⟨fun s i l a => ⟨rfl, rfl⟩, fun s i su se sn rl => ⟨rfl, rfl⟩, ?_⟩
  intro m s subject sender snippet θ h
  unfold get_rejected_labels_for_similar_emails
  rw [if_pos h]

/-- Witness for C3: a mark call on the empty store errors, and the
rejected-labels query errors on the store whose one rejected record has
cosine similarity 1 to the query. -/
theorem C3_witness :
    (mark_email_processed storeEmpty "q1" "A" true).2
        = Except.error PyError.nameError
    ∧ get_rejected_labels_for_similar_emails mconst storeAR "hello" "" "" 0.7
        = Except.error PyError.nameError := by
  refine ⟨(C3_store_logging_raises.1 storeEmpty "q1" "A" true).1, ?_⟩
  refine C3_store_logging_raises.2.2 mconst storeAR "hello" "" "" 0.7 ?_
  rw [show storeAR.rejected = [rejA] from rfl]
  simp only [List.any_cons, List.any_nil, Bool.or_false]
  rw [decide_eq_true_eq, cosSim_storeAR_query]
  norm_num

/-- C6 (the code-level fact behind the bug report): the fallback embedding
seed is `abs(hash(text)) % 2**32`, a function of the salted interpreter
hash, not of the text alone — two runs whose salted hashes of the same text
differ produce different seeds (and the fallback vector depends only on
that seed, so equal hashes do give equal vectors). -/
theorem C6_fallback_depends_on_salted_hash :
    fallback_seed (fun _ => 1) "hello" ≠ fallback_seed (fun _ => 2) "hello"
    ∧ ∀ (prng : Nat → Vec 2) (h1 h2 : String → Int) (t : String),
        h1 t = h2 t → fallback_vec prng h1 t = fallback_vec prng h2 t := by
  constructor
  · norm_num [fallback_seed]
  · intro prng h1 h2 t h
    unfold fallback_vec fallback_seed
    rw [h]

/-- Counterexample to C8 as stated: with the caller-supplied rejected set
containing "A", tiers 1-2 empty, and the generative tier answering "A"
twice (original and retry), the resolver returns the rejected label "A"
instead of giving up. -/
theorem C8_counterexample :
    "A" ∈ ["A"]
    ∧ classify_single_email_with_rejected mconst storeEmpty msgH [] ["A"] 0.35
        (some "A") (some "A") = some ⟨"A", "llm"⟩ := by
  exact ⟨by simp, rfl⟩

/-- C8 (amended): when the first generative suggestion is in the supplied
rejected set the resolver retries exactly once with the amplified prompt;
it returns no suggestion only if the retry errors/unparses or yields an
empty label — otherwise it returns whatever non-empty label the retry
produced, even one still in the rejected set.  When the first suggestion is
truthy and not rejected it is returned without any retry. -/
theorem C8_retry_once {d : Nat} (m : String → Vec d) (s : MemoryStore d) (msg : Msg)
    (labels rejected : List String) (θ : ℝ) (l1 : String) (llm2 : Option String)
    (hbest : (centroid_scoring_cr m s msg labels θ).1 = none)
    (hmem : get_label_for_message s msg.id = none) :
    (l1 ∈ rejected →
      (llm2 = none →
        classify_single_email_with_rejected m s msg labels rejected θ (some l1) llm2
          = none)
      ∧ ∀ l2, llm2 = some l2 → l2 ≠ "" →
          classify_single_email_with_rejected m s msg labels rejected θ (some l1) llm2
            = some ⟨l2, "llm"⟩)
    ∧ (l1 ∉ rejected → l1 ≠ "" →
        classify_single_email_with_rejected m s msg labels rejected θ (some l1) llm2
          = some ⟨l1, "llm"⟩) := by
  have hred : classify_single_email_with_rejected m s msg labels rejected θ
      (some l1) llm2 = cr_llm_tier rejected (some l1) llm2 := by
    simp only [classify_single_email_with_rejected, hbest, cr_memory_or_llm, hmem]
  constructor
  · intro hrej
    constructor
    · intro h2
      subst h2
      rw [hred]
      simp [cr_llm_tier, hrej]
    · intro l2 h2 hne
      subst h2
      rw [hred]
      simp [cr_llm_tier, hrej, hne]
  · intro hnrej hne
    rw [hred]
    simp [cr_llm_tier, hnrej, hne]

/-- Witness for C8 (amended): the three generative outcomes at a concrete
input — retry unparseable gives nothing, retry with a fresh label returns
it, and a first non-rejected label is returned without consuming the
retry. -/
theorem C8_witness :
    classify_single_email_with_rejected mconst storeEmpty msgH [] ["A"] 0.35
        (some "A") none = none
    ∧ classify_single_email_with_rejected mconst storeEmpty msgH [] ["A"] 0.35
        (some "A") (some "B") = some ⟨"B", "llm"⟩
    ∧ classify_single_email_with_rejected mconst storeEmpty msgH [] ["A"] 0.35
        (some "B") none = some ⟨"B", "llm"⟩ := by
  have h1 := C8_retry_once mconst storeEmpty msgH [] ["A"] 0.35 "A" none rfl rfl
  have h2 := C8_retry_once mconst storeEmpty msgH [] ["A"] 0.35 "A" (some "B") rfl rfl
  have h3 := C8_retry_once mconst storeEmpty msgH [] ["A"] 0.35 "B" none rfl rfl
  exact ⟨(h1.1 (by simp)).1 rfl, (h2.1 (by simp)).2 "B" rfl (by decide),
    h3.2 (by simp) (by decide)⟩

theorem scale_congr {d : Nat} {a b : ℝ} (v : Vec d) (h : a = b) :
    scale a v = scale b v := by rw [h]

theorem dot_self_nonneg {d : Nat} (v : Vec d) : 0 ≤ dot v v :=
  Finset.sum_nonneg fun i _ => mul_self_nonneg (v i)

theorem npNorm_scale {d : Nat} (a : ℝ) (v : Vec d) :
    npNorm (scale a v) = |a| * npNorm v := by
  unfold npNorm
  rw [dot_scale_left, dot_scale_right,
    show a * (a * dot v v) = a ^ 2 * dot v v by ring,
    Real.sqrt_mul (sq_nonneg a), Real.sqrt_sq_eq_abs]

theorem embed_normalize_basis {d : Nat} (m : String → Vec d) (t : String) (i : Fin d)
    (ht : t ≠ "") (hm : m t = basis i) :
    embed_text m t = scale alphaU (basis i) := by
  unfold embed_text
  rw [if_neg ht, hm]
  conv_lhs => rw [basis_eq_scale_one]
  rw [normalizeEps_scale_basis _ _ zero_le_one]
  rfl

theorem dot_w51 : dot w51 w51 = 26 := by
  norm_num [dot, w51, basis, Fin.sum_univ_two]

theorem npNorm_w51 : npNorm w51 = Real.sqrt 26 := by
  unfold npNorm
  rw [dot_w51]

theorem sqrt26_ge_five : (5 : ℝ) ≤ Real.sqrt 26 := by
  have h := Real.sqrt_le_sqrt (by norm_num : (25 : ℝ) ≤ 26)
  rwa [show Real.sqrt 25 = 5 by
    rw [show (25 : ℝ) = 5 ^ 2 by norm_num, Real.sqrt_sq (by norm_num : (0 : ℝ) ≤ 5)]]
    at h

theorem sqrt26_pos : (0 : ℝ) < Real.sqrt 26 :=
  Real.sqrt_pos.mpr (by norm_num)

theorem centroidOrtho :
    get_label_centroids mOrtho [exOrtho1, exOrtho2] "B"
      = some (scale (1 / (npNorm (scale (alphaU / 6) w51) + normEps))
          (scale (alphaU / 6) w51)) := by
  have he1 : embed_text mOrtho (rowText exOrtho1) = scale alphaU (basis 0) :=
    embed_normalize_basis mOrtho _ 0 (by decide) rfl
  have he2 : embed_text mOrtho (rowText exOrtho2) = scale alphaU (basis 1) :=
    embed_normalize_basis mOrtho _ 1 (by decide) rfl
  have key : ∀ wm : Vec 2, wm = scale (alphaU / 6) w51 →
      (some (scale (1 / (npNorm wm + normEps)) wm) : Option (Vec 2))
        = some (scale (1 / (npNorm (scale (alphaU / 6) w51) + normEps))
            (scale (alphaU / 6) w51)) := by
    intro wm hwm
    rw [hwm]
  simp only [get_label_centroids]
  rw [show List.filter (fun r => r.applied_label == "B") [exOrtho1, exOrtho2]
      = [exOrtho1, exOrtho2] from rfl]
  simp only [List.map_cons, List.map_nil, List.isEmpty_cons, Bool.false_eq_true,
    if_false, List.sum_cons, List.sum_nil, add_zero, he1, he2]
  rw [show (if exOrtho1.accepted then (5 : ℝ) else 1) = 5 from rfl,
    show (if exOrtho2.accepted then (5 : ℝ) else 1) = 1 from rfl]
  apply key
  funext j
  simp only [scale, w51]
  ring

/-- C4: `getLabelCentroids` returns the empty mapping on an empty store; a
label has a centroid exactly when it has at least one stored example (both
accepted and non-accepted rows count); and for one accepted plus one
non-accepted example with orthogonal equal-norm embeddings the centroid is
a positive multiple of the spec's unit-normalised (weight-5, weight-1)
average of the two basis directions, with norm within 1e-6 of 1 (the code
divides by `norm + 1e-8` rather than by the exact norm). -/
theorem C4_centroid_weighting :
    (∀ (m : String → Vec 2) (L : String), get_label_centroids m [] L = none)
    ∧ (∀ (m : String → Vec 2) (rows : List LabeledEmail) (L : String),
        (get_label_centroids m rows L).isSome = true ↔ ∃ r ∈ rows, r.applied_label = L)
    ∧ (∃ c, get_label_centroids mOrtho [exOrtho1, exOrtho2] "B" = some c
        ∧ (∃ t : ℝ, 0 < t
            ∧ c = scale t (spec_unit_weighted_average (basis 0) (basis 1)))
        ∧ |npNorm c - 1| ≤ 1e-6) := by
  refine ⟨fun m L => rfl, ?_, ?_⟩
  · intro m rows L
    cases hf : rows.filter (fun r => r.applied_label == L) with
    | nil =>
        have hnone : get_label_centroids m rows L = none := by
          simp [get_label_centroids, hf]
        rw [hnone]
        simp only [Option.isSome_none]
        constructor
        · intro h
          exact absurd h (by simp)
        · rintro ⟨r, hr, hL⟩
          have hni := List.filter_eq_nil_iff.mp hf r hr
          simp [hL] at hni
    | cons r t =>
        have hsome : ∃ c, get_label_centroids m rows L = some c := by
          simp only [get_label_centroids, hf, List.map_cons, List.isEmpty_cons,
            Bool.false_eq_true, if_false]
          exact ⟨_, rfl⟩
        rcases hsome with ⟨c, hc⟩
        rw [hc]
        simp only [Option.isSome_some, true_iff]
        have hrmem : r ∈ rows.filter (fun r => r.applied_label == L) := by
          rw [hf]
          exact List.mem_cons_self r t
        have hsplit := List.mem_filter.mp hrmem
        exact ⟨r, hsplit.1, by simpa using hsplit.2⟩
  · -- the concrete two-example case
    have h26ne := sqrt26_pos.ne'
    set n : ℝ := npNorm (scale (alphaU / 6) w51) with hn
    have halpha6 : (0 : ℝ) < alphaU / 6 := div_pos alphaU_pos (by norm_num)
    have hnval : n = alphaU / 6 * Real.sqrt 26 := by
      rw [hn, npNorm_scale, npNorm_w51, abs_of_pos halpha6]
    have hnpos : (0 : ℝ) < n := by
      rw [hnval]
      exact mul_pos halpha6 sqrt26_pos
    have hne : (0 : ℝ) < n + normEps := add_pos hnpos normEps_pos
    have hspec : spec_unit_weighted_average (basis 0) (basis 1)
        = scale (1 / Real.sqrt 26) w51 := by
      unfold spec_unit_weighted_average
      rw [show (fun i => (5 * (basis 0 : Vec 2) i + 1 * basis 1 i) / 6)
          = scale (1 / 6) w51 by funext j; simp only [scale, w51]; ring]
      rw [npNorm_scale, npNorm_w51, abs_of_pos (by norm_num : (0:ℝ) < 1/6),
        scale_scale]
      refine scale_congr w51 ?_
      field_simp
      ring
    have heq : 1 / (n + normEps) * (alphaU / 6) * Real.sqrt 26 = n / (n + normEps) := by
      rw [show 1 / (n + normEps) * (alphaU / 6) * Real.sqrt 26
          = (alphaU / 6 * Real.sqrt 26) / (n + normEps) by ring, ← hnval]
    refine ⟨scale (1 / (n + normEps)) (scale (alphaU / 6) w51), centroidOrtho,
      ⟨n / (n + normEps), div_pos hnpos hne, ?_⟩, ?_⟩
    · rw [hspec, scale_scale, scale_scale]
      refine scale_congr w51 ?_
      apply mul_right_cancel₀ h26ne
      rw [heq, mul_assoc, one_div_mul_cancel h26ne, mul_one]
    · rw [scale_scale, npNorm_scale, npNorm_w51]
      have hco : (0 : ℝ) < 1 / (n + normEps) * (alphaU / 6) :=
        mul_pos (by positivity) halpha6
      rw [abs_of_pos hco, heq]
      have hub : n / (n + normEps) - 1 = -(normEps / (n + normEps)) := by
        field_simp
      rw [hub, abs_neg, abs_of_nonneg (div_nonneg normEps_pos.le hne.le)]
      rw [div_le_iff₀ hne]
      have hn512 : (5 : ℝ) / 12 ≤ n := by
        rw [hnval]
        have ha2 : (1 : ℝ) / 2 ≤ alphaU := by norm_num [alphaU, normEps]
        nlinarith [sqrt26_ge_five, alphaU_pos]
      have hε : normEps = 1e-8 := rfl
      nlinarith [hn512, normEps_pos]

end GmailLabeler
